import Mathlib

/-!
Shallow embedding of the neural-network layer kernels of
assignment2/cs231n/layers.py (affine, ReLU, batch normalization, dropout,
naive convolution, naive max pooling, spatial batch normalization), together
with theorems settling the specification claims about them.

Tensors are modelled as total rational-valued index functions carrying their
numpy shape explicitly:
  - Mat  models a 2-d array (N, D);
  - Vec  models a 1-d array (D,);
  - Ten4 models a 4-d array (N, C, H, W);
  - TenN models an array of arbitrary shape, with row-major flat data, as
    used by the affine, ReLU and dropout kernels which accept any shape.
Floating point is modelled as exact rational arithmetic.  numpy square roots
are modelled by an explicit function parameter sq : Rat to Rat, since exact
square roots do not exist inside the rationals; theorems that depend on the
square root hypothesise its defining equation only at the points where the
code evaluates it.  Python exceptions are modelled by Except PyError.
-/

namespace Layers

/-- Errors raised by the Python code: ValueError raised explicitly by
batchnorm_forward on an invalid mode, AttributeError raised by the attempted
attribute access out.astype when out is still None, TypeError raised by an
arithmetic operation on None. -/
inductive PyError where
  | valueError (msg : String)
  | attributeError (msg : String)
  | typeError (msg : String)
deriving DecidableEq

/-- A 1-d numpy array of shape (len,). -/
@[ext]
structure Vec where
  len : ℕ
  data : ℕ → ℚ

/-- A 2-d numpy array of shape (rows, cols). -/
@[ext]
structure Mat where
  rows : ℕ
  cols : ℕ
  data : ℕ → ℕ → ℚ

/-- A 4-d numpy array of shape (d0, d1, d2, d3). -/
@[ext]
structure Ten4 where
  d0 : ℕ
  d1 : ℕ
  d2 : ℕ
  d3 : ℕ
  data : ℕ → ℕ → ℕ → ℕ → ℚ

/-- A numpy array of arbitrary shape dims, with row-major flat data. -/
@[ext]
structure TenN where
  dims : List ℕ
  data : ℕ → ℚ

/-- Shape of the result of a numpy broadcast of two shapes: the shapes are
aligned at their trailing axes and each pair of axis lengths is combined
(numpy requires equal lengths or a 1 on one side, in which case the combined
length is the larger one; on shapes for which broadcasting is defined, the
combined length is the maximum). -/
def broadcastShape (a b : List ℕ) : List ℕ :=
  (broadcastRev a.reverse b.reverse).reverse
where
  /-- Combine two reversed (trailing-axis-first) shapes. -/
  broadcastRev : List ℕ → List ℕ → List ℕ
    | [], ys => ys
    | xs, [] => xs
    | x :: xs, y :: ys => max x y :: broadcastRev xs ys

/-- Python int() applied to an exact rational: truncation toward zero. -/
def pyTrunc (q : ℚ) : ℤ := Int.tdiv q.num q.den

/-! ## Affine kernel (affine_forward / affine_backward) -/

/-- affine_forward: X = np.reshape(x, (x.shape[0], -1)); out = np.dot(X, w) + b;
return out, (x, w, b).  The -1 of the reshape resolves to the product of the
non-batch dimensions. -/
def affine_forward (x : TenN) (w : Mat) (b : Vec) : Mat × (TenN × Mat × Vec) :=
  let N := x.dims.headD 0
  let D := x.dims.tail.prod
  let X : Mat := ⟨N, D, fun i j => x.data (i * D + j)⟩
  let out : Mat := ⟨N, w.cols, fun i m =>
    (∑ j ∈ Finset.range w.rows, X.data i j * w.data j m) + b.data m⟩
  (out, (x, w, b))

/-- affine_backward: dX = np.dot(dout, w.T); dx = dX.reshape(x.shape);
dw = np.dot(x.reshape(dX.shape).T, dout); db = np.dot(dout.T, np.ones(x.shape[0])). -/
def affine_backward (dout : Mat) (cache : TenN × Mat × Vec) : TenN × Mat × Vec :=
  let x := cache.1
  let w := cache.2.1
  let dX : Mat := ⟨dout.rows, w.rows, fun i j =>
    ∑ m ∈ Finset.range w.cols, dout.data i m * w.data j m⟩
  let dx : TenN := ⟨x.dims, fun k => dX.data (k / dX.cols) (k % dX.cols)⟩
  let Xr : Mat := ⟨dX.rows, dX.cols, fun i j => x.data (i * dX.cols + j)⟩
  let dw : Mat := ⟨Xr.cols, dout.cols, fun j m =>
    ∑ i ∈ Finset.range dout.rows, Xr.data i j * dout.data i m⟩
  let db : Vec := ⟨dout.cols, fun m =>
    ∑ i ∈ Finset.range (x.dims.headD 0), dout.data i m * 1⟩
  (dx, dw, db)

/-! ## ReLU kernel (relu_forward / relu_backward) -/

/-- relu_forward: out = np.maximum(0, x); return out, x. -/
def relu_forward (x : TenN) : TenN × TenN :=
  (⟨x.dims, fun k => max 0 (x.data k)⟩, x)

/-- relu_backward: dx = np.where(x >= 0, dout, 0).  The result shape of
np.where is the broadcast of the shapes of its arguments (the scalar 0
contributes nothing). -/
def relu_backward (dout : TenN) (cache : TenN) : TenN :=
  let x := cache
  ⟨broadcastShape x.dims dout.dims, fun k => if 0 ≤ x.data k then dout.data k else 0⟩

/-! ## Batch normalization kernel -/

/-- The dictionary bn_param: mode is required, the other keys are looked up
with defaults (eps 1e-5, momentum 0.9, running mean/var zeros of shape (D,)). -/
structure BNParam where
  mode : String
  eps : Option ℚ
  momentum : Option ℚ
  running_mean : Option Vec
  running_var : Option Vec

/-- sample_mean = np.mean(x, axis=0). -/
def bnSampleMean (x : Mat) : Vec :=
  ⟨x.cols, fun j => (∑ i ∈ Finset.range x.rows, x.data i j) / (x.rows : ℚ)⟩

/-- sample_var = np.mean(np.square(x - sample_mean), axis=0). -/
def bnSampleVar (x : Mat) : Vec :=
  ⟨x.cols, fun j =>
    (∑ i ∈ Finset.range x.rows, (x.data i j - (bnSampleMean x).data j) ^ 2) / (x.rows : ℚ)⟩

/-- num = x - sample_mean. -/
def bnNum (x : Mat) : Mat :=
  ⟨x.rows, x.cols, fun i j => x.data i j - (bnSampleMean x).data j⟩

/-- den = np.sqrt(sample_var + eps), with np.sqrt modelled by sq. -/
def bnDen (sq : ℚ → ℚ) (x : Mat) (eps : ℚ) : Vec :=
  ⟨x.cols, fun j => sq ((bnSampleVar x).data j + eps)⟩

/-- xn = num / den. -/
def bnXn (sq : ℚ → ℚ) (x : Mat) (eps : ℚ) : Mat :=
  ⟨x.rows, x.cols, fun i j => (bnNum x).data i j / (bnDen sq x eps).data j⟩

/-- out = xn * gamma + beta. -/
def bnTrainOut (sq : ℚ → ℚ) (x : Mat) (gamma beta : Vec) (eps : ℚ) : Mat :=
  ⟨x.rows, x.cols, fun i j => (bnXn sq x eps).data i j * gamma.data j + beta.data j⟩

/-- The training cache tuple (gamma, beta, eps, x, xn, sample_mean, sample_var,
num, den) stored by batchnorm_forward. -/
structure BNCache where
  gamma : Vec
  beta : Vec
  eps : ℚ
  x : Mat
  xn : Mat
  smean : Vec
  svar : Vec
  num : Mat
  den : Vec

/-- Cache built by the training branch of batchnorm_forward. -/
def bnTrainCache (sq : ℚ → ℚ) (x : Mat) (gamma beta : Vec) (eps : ℚ) : BNCache :=
  ⟨gamma, beta, eps, x, bnXn sq x eps, bnSampleMean x, bnSampleVar x, bnNum x, bnDen sq x eps⟩

/-- batchnorm_forward.  Returns (out, cache) and the bn_param dictionary as it
stands after the call (the code mutates the caller-supplied dictionary by
assigning bn_param with the running_mean and running_var keys after either
valid branch; on an invalid mode it raises before reaching those
assignments). -/
def batchnorm_forward (sq : ℚ → ℚ) (x : Mat) (gamma beta : Vec) (bn_param : BNParam) :
    Except PyError (Mat × Option BNCache × BNParam) :=
  let mode := bn_param.mode
  let eps := bn_param.eps.getD (1 / 100000)
  let momentum := bn_param.momentum.getD (9 / 10)
  let running_mean := bn_param.running_mean.getD ⟨x.cols, fun _ => 0⟩
  let running_var := bn_param.running_var.getD ⟨x.cols, fun _ => 0⟩
  if mode = "train" then
    let sample_mean := bnSampleMean x
    let sample_var := bnSampleVar x
    let out := bnTrainOut sq x gamma beta eps
    let new_mean : Vec := ⟨running_mean.len, fun j =>
      momentum * running_mean.data j + (1 - momentum) * sample_mean.data j⟩
    let new_var : Vec := ⟨running_var.len, fun j =>
      momentum * running_var.data j + (1 - momentum) * sample_var.data j⟩
    .ok (out, some (bnTrainCache sq x gamma beta eps),
      { bn_param with running_mean := some new_mean, running_var := some new_var })
  else if mode = "test" then
    let xn : Mat := ⟨x.rows, x.cols, fun i j =>
      (x.data i j - running_mean.data j) / sq (running_var.data j + eps)⟩
    let out : Mat := ⟨x.rows, x.cols, fun i j => xn.data i j * gamma.data j + beta.data j⟩
    .ok (out, none,
      { bn_param with running_mean := some running_mean, running_var := some running_var })
  else
    .error (.valueError ("Invalid forward batchnorm mode \"" ++ mode ++ "\""))

/-- batchnorm_backward: step-by-step reversal of the forward computation
graph, following the code line by line (dxn, dgamma, dbeta, invden, dnum,
dx, dsmean, dinvden, dden, dsvareps, dsvar, then the two accumulations into
dsmean and dx). -/
def batchnorm_backward (dout : Mat) (cache : BNCache) : Mat × Vec × Vec :=
  let gamma := cache.gamma
  let x := cache.x
  let xn := cache.xn
  let smean := cache.smean
  let num := cache.num
  let den := cache.den
  let dxn : Mat := ⟨dout.rows, dout.cols, fun i j => dout.data i j * gamma.data j⟩
  let dgamma : Vec := ⟨dout.cols, fun j =>
    ∑ i ∈ Finset.range dout.rows, dout.data i j * xn.data i j⟩
  let dbeta : Vec := ⟨dout.cols, fun j => ∑ i ∈ Finset.range dout.rows, dout.data i j⟩
  let invden : Vec := ⟨den.len, fun j => 1 / den.data j⟩
  let dnum : Mat := ⟨dxn.rows, dxn.cols, fun i j => dxn.data i j * invden.data j⟩
  let dx : Mat := ⟨dnum.rows, dnum.cols, fun i j => 1 * dnum.data i j⟩
  let dsmean : Vec := ⟨dnum.cols, fun j => -1 * ∑ i ∈ Finset.range dnum.rows, dnum.data i j⟩
  let dinvden : Vec := ⟨dxn.cols, fun j =>
    ∑ i ∈ Finset.range dxn.rows, dxn.data i j * num.data i j⟩
  let dden : Vec := ⟨den.len, fun j => -1 / den.data j ^ 2 * dinvden.data j⟩
  let dsvareps : Vec := ⟨den.len, fun j => 1 / 2 / den.data j * dden.data j⟩
  let dsvar := dsvareps
  let dsmean2 : Vec := ⟨dsmean.len, fun j => dsmean.data j +
    2 * dsvar.data j * ((∑ i ∈ Finset.range x.rows, (x.data i j - smean.data j)) / (x.rows : ℚ))⟩
  let dx2 : Mat := ⟨dx.rows, dx.cols, fun i j =>
    dx.data i j + 2 * dsvar.data j * (x.data i j - smean.data j) / (x.rows : ℚ)⟩
  let dx3 : Mat := ⟨dx2.rows, dx2.cols, fun i j =>
    dx2.data i j + 1 * dsmean2.data j / (x.rows : ℚ)⟩
  (dx3, dgamma, dbeta)

/-- batchnorm_backward_alt: the algebraically simplified variant.
dx = N * dout - np.sum(dout, axis=0);
dx -= (x - smean) * np.sum(dout * (x - smean), axis=0) / (svar + eps);
dx *= gamma / N / np.sqrt(svar + eps). -/
def batchnorm_backward_alt (sq : ℚ → ℚ) (dout : Mat) (cache : BNCache) : Mat × Vec × Vec :=
  let gamma := cache.gamma
  let x := cache.x
  let xn := cache.xn
  let smean := cache.smean
  let svar := cache.svar
  let eps := cache.eps
  let N := x.rows
  let dx1 : Mat := ⟨dout.rows, dout.cols, fun i j =>
    (N : ℚ) * dout.data i j - ∑ k ∈ Finset.range dout.rows, dout.data k j⟩
  let dx2 : Mat := ⟨dx1.rows, dx1.cols, fun i j =>
    dx1.data i j - (x.data i j - smean.data j) *
      (∑ k ∈ Finset.range dout.rows, dout.data k j * (x.data k j - smean.data j)) /
      (svar.data j + eps)⟩
  let dx3 : Mat := ⟨dx2.rows, dx2.cols, fun i j =>
    dx2.data i j * (gamma.data j / (N : ℚ) / sq (svar.data j + eps))⟩
  let dgamma : Vec := ⟨dout.cols, fun j =>
    ∑ i ∈ Finset.range dout.rows, dout.data i j * xn.data i j⟩
  let dbeta : Vec := ⟨dout.cols, fun j => ∑ i ∈ Finset.range dout.rows, dout.data i j⟩
  (dx3, dgamma, dbeta)

/-! ## Dropout kernel -/

/-- The dictionary dropout_param with keys p, mode, and the optional seed.
The seed only re-seeds the global random generator; randomness is modelled
by the explicit stream of uniform draws passed to dropout_forward, so the
seed has no further effect inside the model. -/
structure DropoutParam where
  p : ℚ
  mode : String
  seed : Option ℕ

/-- The training-mode mask: mask = np.ones(x.shape); mask[probs < p] = 0,
where probs = np.random.rand(*x.shape) is the stream of uniform draws. -/
def dropoutMask (x : TenN) (p : ℚ) (probs : ℕ → ℚ) : TenN :=
  ⟨x.dims, fun k => if probs k < p then 0 else 1⟩

/-- dropout_forward.  In train mode out = x * mask; in test mode out = x;
for any other mode the if/elif chain leaves out = None and the final
out.astype(x.dtype, copy=False) raises AttributeError (astype is the
identity on values in exact arithmetic).  The cache is (dropout_param, mask),
with mask = None outside train mode. -/
def dropout_forward (x : TenN) (dropout_param : DropoutParam) (probs : ℕ → ℚ) :
    Except PyError (TenN × (DropoutParam × Option TenN)) :=
  let p := dropout_param.p
  let mode := dropout_param.mode
  if mode = "train" then
    let mask := dropoutMask x p probs
    let out : TenN := ⟨broadcastShape x.dims mask.dims, fun k => x.data k * mask.data k⟩
    .ok (out, (dropout_param, some mask))
  else if mode = "test" then
    .ok (x, (dropout_param, none))
  else
    .error (.attributeError "NoneType object has no attribute astype")

/-- dropout_backward: dx = dout * mask in train mode (a None mask would make
the multiplication raise TypeError), dx = dout in test mode, and dx stays
None for any other mode (the function returns it without complaint). -/
def dropout_backward (dout : TenN) (cache : DropoutParam × Option TenN) :
    Except PyError (Option TenN) :=
  let mode := cache.1.mode
  if mode = "train" then
    match cache.2 with
    | some mask =>
        .ok (some ⟨broadcastShape dout.dims mask.dims, fun k => dout.data k * mask.data k⟩)
    | none => .error (.typeError "unsupported operand types for mul: float and NoneType")
  else if mode = "test" then
    .ok (some dout)
  else
    .ok none

/-! ## Convolution kernel (conv_forward_naive / conv_backward_naive) -/

/-- The dictionary conv_param; both keys are looked up with
conv_param.get("stride", 1) and conv_param.get("pad", 0). -/
structure ConvParam where
  stride : Option ℕ
  pad : Option ℕ

/-- x_padded = np.pad(x, ((0,), (0,), (pad,), (pad,)), constant): zero padding
of the two trailing (spatial) axes. -/
def convPad (x : Ten4) (pad : ℕ) : Ten4 :=
  ⟨x.d0, x.d1, x.d2 + 2 * pad, x.d3 + 2 * pad, fun n c h v =>
    if pad ≤ h ∧ h < pad + x.d2 ∧ pad ≤ v ∧ v < pad + x.d3 then
      x.data n c (h - pad) (v - pad)
    else 0⟩

/-- H1 = int(1 + (H + 2 * pad - HH) / stride): Python true division followed
by int() truncation. -/
def convOutDim (H HH stride pad : ℕ) : ℤ :=
  pyTrunc (1 + ((H : ℚ) + 2 * (pad : ℚ) - (HH : ℚ)) / (stride : ℚ))

/-- conv_forward_naive.  For each output position (i, j) the code flattens the
receptive-field patch to (N, C*HH*WW) and multiplies it by the reshaped
filter matrix then adds the bias; since both flattenings are row-major over
(C, HH, WW), that inner product is exactly the triple sum written here.  The
dimension C is re-bound by F, C, HH, WW = w.shape, so the contraction ranges
over the dimensions of w. -/
def conv_forward_naive (x w : Ten4) (b : Vec) (conv_param : ConvParam) :
    Ten4 × (Ten4 × Ten4 × Vec × ConvParam) :=
  let stride := conv_param.stride.getD 1
  let pad := conv_param.pad.getD 0
  let xp := convPad x pad
  let H1 := (convOutDim x.d2 w.d2 stride pad).toNat
  let W1 := (convOutDim x.d3 w.d3 stride pad).toNat
  let out : Ten4 := ⟨x.d0, w.d0, H1, W1, fun n f i j =>
    (∑ c ∈ Finset.range w.d1, ∑ a ∈ Finset.range w.d2, ∑ e ∈ Finset.range w.d3,
      xp.data n c (stride * i + a) (stride * j + e) * w.data f c a e) + b.data f⟩
  (out, (x, w, b, conv_param))

/-- conv_backward_naive.  The loop over output positions accumulates, for each
position (i, j): dxij = np.dot(dO, wr) into the receptive field of dx_padded,
dwr += np.dot(dO.T, xij), and db += np.dot(dO.T, np.ones(N)); the
accumulation loops are modelled by sums over the output positions.  Finally
dx = dx_padded[:, :, pad:H+pad, pad:W+pad] (a numpy basic slice: its length
on an axis of length L is min(H+pad, L) - pad) and dw = dwr.reshape(F, C, HH, WW). -/
def conv_backward_naive (dout : Ten4) (cache : Ten4 × Ten4 × Vec × ConvParam) :
    Ten4 × Ten4 × Vec :=
  let x := cache.1
  let w := cache.2.1
  let b := cache.2.2.1
  let conv_param := cache.2.2.2
  let stride := conv_param.stride.getD 1
  let pad := conv_param.pad.getD 0
  let xp := convPad x pad
  let H1 := (convOutDim x.d2 w.d2 stride pad).toNat
  let W1 := (convOutDim x.d3 w.d3 stride pad).toNat
  let dxp : Ten4 := ⟨x.d0, x.d1, x.d2 + 2 * pad, x.d3 + 2 * pad, fun n c h v =>
    ∑ i ∈ Finset.range H1, ∑ j ∈ Finset.range W1,
      if stride * i ≤ h ∧ h < stride * i + w.d2 ∧ stride * j ≤ v ∧ v < stride * j + w.d3 then
        ∑ f ∈ Finset.range w.d0,
          dout.data n f i j * w.data f c (h - stride * i) (v - stride * j)
      else 0⟩
  let dx : Ten4 := ⟨x.d0, x.d1,
    min (x.d2 + pad) (x.d2 + 2 * pad) - pad, min (x.d3 + pad) (x.d3 + 2 * pad) - pad,
    fun n c h v => dxp.data n c (h + pad) (v + pad)⟩
  let dw : Ten4 := ⟨w.d0, w.d1, w.d2, w.d3, fun f c a e =>
    ∑ i ∈ Finset.range H1, ∑ j ∈ Finset.range W1, ∑ n ∈ Finset.range x.d0,
      dout.data n f i j * xp.data n c (stride * i + a) (stride * j + e)⟩
  let db : Vec := ⟨b.len, fun f =>
    ∑ i ∈ Finset.range H1, ∑ j ∈ Finset.range W1, ∑ n ∈ Finset.range x.d0,
      dout.data n f i j⟩
  (dx, dw, db)

/-! ## Max-pooling kernel (max_pool_forward_naive / max_pool_backward_naive) -/

/-- The dictionary pool_param; the keys are looked up with
pool_param.get("pool_height", H), pool_param.get("pool_width", W) and
pool_param.get("stride", 1). -/
structure PoolParam where
  pool_height : Option ℕ
  pool_width : Option ℕ
  stride : Option ℕ

/-- H1 = int((H - HH) / stride + 1). -/
def poolOutDim (H HH stride : ℕ) : ℤ :=
  pyTrunc (((H : ℚ) - (HH : ℚ)) / (stride : ℚ) + 1)

/-- np.amax of the pooling window at output position (i, j): the maximum of
x[n, c, stride*i : stride*i+HH, stride*j : stride*j+WW].  np.amax of an empty
window would raise, so an empty window is given the junk value 0. -/
def poolWindowMax (x : Ten4) (stride HH WW n c i j : ℕ) : ℚ :=
  if h : (Finset.range HH ×ˢ Finset.range WW).Nonempty then
    (Finset.range HH ×ˢ Finset.range WW).sup' h fun ab =>
      x.data n c (stride * i + ab.1) (stride * j + ab.2)
  else 0

/-- max_pool_forward_naive: out[n, c, i, j] is the window maximum; the cache
is (x, out, pool_param). -/
def max_pool_forward_naive (x : Ten4) (pool_param : PoolParam) :
    Ten4 × (Ten4 × Ten4 × PoolParam) :=
  let HH := pool_param.pool_height.getD x.d2
  let WW := pool_param.pool_width.getD x.d3
  let stride := pool_param.stride.getD 1
  let H1 := (poolOutDim x.d2 HH stride).toNat
  let W1 := (poolOutDim x.d3 WW stride).toNat
  let out : Ten4 := ⟨x.d0, x.d1, H1, W1, fun n c i j => poolWindowMax x stride HH WW n c i j⟩
  (out, (x, out, pool_param))

/-- max_pool_backward_naive.  For each output position the code builds the
mask xij == outij (1.0 on locations equal to the stored window maximum, 0.0
elsewhere), multiplies it by the repeated upstream value, and accumulates the
result into dx over the window; the += loop over the output positions is
modelled by the double sum. -/
def max_pool_backward_naive (dout : Ten4) (cache : Ten4 × Ten4 × PoolParam) : Ten4 :=
  let x := cache.1
  let out := cache.2.1
  let pool_param := cache.2.2
  let HH := pool_param.pool_height.getD x.d2
  let WW := pool_param.pool_width.getD x.d3
  let stride := pool_param.stride.getD 1
  let H1 := (poolOutDim x.d2 HH stride).toNat
  let W1 := (poolOutDim x.d3 WW stride).toNat
  ⟨x.d0, x.d1, x.d2, x.d3, fun n c h v =>
    ∑ i ∈ Finset.range H1, ∑ j ∈ Finset.range W1,
      if stride * i ≤ h ∧ h < stride * i + HH ∧ stride * j ≤ v ∧ v < stride * j + WW then
        (if x.data n c h v = out.data n c i j then 1 else 0) * dout.data n c i j
      else 0⟩

/-! ## Spatial batch normalization kernel -/

/-- rx = x.transpose(0, 2, 3, 1).reshape(N*H*W, C): row-major flat index i
over (N, H, W) decodes as n = i / (H*W), h = (i % (H*W)) / W, w = i % W. -/
def spatialReshape (x : Ten4) : Mat :=
  ⟨x.d0 * x.d2 * x.d3, x.d1, fun i c =>
    x.data (i / (x.d2 * x.d3)) c ((i % (x.d2 * x.d3)) / x.d3) (i % x.d3)⟩

/-- rout.reshape(N, H, W, C).transpose(0, 3, 1, 2): the inverse layout
transform, reading entry (n, c, h, w) from row (n*H + h)*W + w of the
matrix. -/
def spatialUnreshape (N C H W : ℕ) (m : Mat) : Ten4 :=
  ⟨N, C, H, W, fun n c h w => m.data ((n * H + h) * W + w) c⟩

/-- spatial_batchnorm_forward: permute the channel axis last, flatten batch
and spatial axes, delegate to batchnorm_forward, and invert the permutation
on the result. -/
def spatial_batchnorm_forward (sq : ℚ → ℚ) (x : Ten4) (gamma beta : Vec) (bn_param : BNParam) :
    Except PyError (Ten4 × Option BNCache × BNParam) :=
  match batchnorm_forward sq (spatialReshape x) gamma beta bn_param with
  | .ok (rout, cache, p2) => .ok (spatialUnreshape x.d0 x.d1 x.d2 x.d3 rout, cache, p2)
  | .error e => .error e

/-- spatial_batchnorm_backward: the same layout transform on dout, delegation
to batchnorm_backward_alt, and the inverse transform on rdx. -/
def spatial_batchnorm_backward (sq : ℚ → ℚ) (dout : Ten4) (cache : BNCache) :
    Ten4 × Vec × Vec :=
  let rdout := spatialReshape dout
  let r := batchnorm_backward_alt sq rdout cache
  (spatialUnreshape dout.d0 dout.d1 dout.d2 dout.d3 r.1, r.2.1, r.2.2)

/-! ## Substring test used to state that an error message mentions the mode -/

/-- Whether pat occurs as a prefix of s (on character lists). -/
def startsWithList : List Char → List Char → Bool
  | [], _ => true
  | _ :: _, [] => false
  | a :: ta, b :: tb => a = b && startsWithList ta tb

/-- Whether pat occurs as a contiguous substring of s (on character lists). -/
def containsSub : List Char → List Char → Bool
  | s, [] => (fun _ => true) s
  | [], _ :: _ => false
  | c :: t, pat => startsWithList pat (c :: t) || containsSub t pat

/-! ## Concrete sample values used by witness theorems -/

/-- A sample (1, 1, 2, 2) tensor. -/
def sampleTen4 : Ten4 := ⟨1, 1, 2, 2, fun _ _ _ _ => 0⟩

/-- A sample (1, 1, 1, 1) tensor. -/
def sampleTen4unit : Ten4 := ⟨1, 1, 1, 1, fun _ _ _ _ => 0⟩

/-- A sample 1x1 matrix. -/
def sampleMat1 : Mat := ⟨1, 1, fun _ _ => 0⟩

/-- A sample 2x1 matrix. -/
def sampleMat21 : Mat := ⟨2, 1, fun _ _ => 0⟩

/-- A sample length-1 vector. -/
def sampleVec1 : Vec := ⟨1, fun _ => 0⟩

/-- A sample flat tensor of shape (2,). -/
def sampleTenN : TenN := ⟨[2], fun _ => 0⟩

/-- A sample flat tensor of shape (1, 2). -/
def sampleTenN12 : TenN := ⟨[1, 2], fun _ => 0⟩

/-- A sample batchnorm cache with all dimensions 1. -/
def sampleCache : BNCache :=
  ⟨⟨1, fun _ => 1⟩, ⟨1, fun _ => 0⟩, 1, ⟨1, 1, fun _ _ => 0⟩, ⟨1, 1, fun _ _ => 0⟩,
    ⟨1, fun _ => 0⟩, ⟨1, fun _ => 0⟩, ⟨1, 1, fun _ _ => 0⟩, ⟨1, fun _ => 1⟩⟩

/-! ## Helper lemmas -/

theorem broadcastRev_self (l : List ℕ) : broadcastShape.broadcastRev l l = l := by
  induction l with
  | nil => rfl
  | cons a t ih => simp [broadcastShape.broadcastRev, ih]

theorem broadcastShape_self (d : List ℕ) : broadcastShape d d = d := by
  rw [broadcastShape, broadcastRev_self, List.reverse_reverse]

theorem startsWithList_self_append (p r : List Char) : startsWithList p (p ++ r) = true := by
  induction p with
  | nil => rfl
  | cons a t ih => simp [startsWithList, ih]

theorem containsSub_nil (s : List Char) : containsSub s [] = true := by
  cases s <;> rfl

theorem containsSub_append_middle (pre m post : List Char) :
    containsSub (pre ++ m ++ post) m = true := by
  cases m with
  | nil => exact containsSub_nil _
  | cons c u =>
    induction pre with
    | nil =>
      rw [List.nil_append, List.cons_append]
      simp only [containsSub]
      rw [← List.cons_append, startsWithList_self_append, Bool.true_or]
    | cons a t ih =>
      rw [List.cons_append, List.cons_append]
      simp only [containsSub]
      rw [← List.cons_append, ih, Bool.or_true]

theorem pyTrunc_eq_floor (q : ℚ) (h : 0 ≤ q) : pyTrunc q = ⌊q⌋ := by
  rw [pyTrunc, Int.tdiv_eq_ediv (Rat.num_nonneg.mpr h) (Int.natCast_nonneg _), Rat.floor_def]

theorem pyTrunc_natCast (n : ℕ) : pyTrunc ((n : ℕ) : ℚ) = (n : ℤ) := by
  rw [pyTrunc_eq_floor _ (by positivity), Int.floor_natCast]

/-- On an exactly divisible configuration the truncating output-dimension
formula of the convolution kernel computes the exact value. -/
theorem convOutDim_exact (H HH s p : ℕ) (hs : 0 < s) (hle : HH ≤ H + 2 * p)
    (hdvd : s ∣ (H + 2 * p - HH)) :
    (convOutDim H HH s p).toNat = 1 + (H + 2 * p - HH) / s := by
  have hcast : (H : ℚ) + 2 * (p : ℚ) - (HH : ℚ) = ((H + 2 * p - HH : ℕ) : ℚ) := by
    rw [Nat.cast_sub hle]
    push_cast
    ring
  rw [convOutDim, hcast, ← Nat.cast_div hdvd (Nat.cast_ne_zero.mpr hs.ne')]
  rw [show (1 : ℚ) + ((H + 2 * p - HH) / s : ℕ) =
    ((1 + (H + 2 * p - HH) / s : ℕ) : ℚ) by push_cast; ring]
  rw [pyTrunc_natCast, Int.toNat_natCast]

/-- The truncating output-dimension formula of the pooling kernel, evaluated
for a window that fits in the input. -/
theorem poolOutDim_eq (H HH s : ℕ) (hs : 0 < s) (hle : HH ≤ H) :
    (poolOutDim H HH s).toNat = (H - HH) / s + 1 := by
  have hcast : (H : ℚ) - (HH : ℚ) = ((H - HH : ℕ) : ℚ) := by
    rw [Nat.cast_sub hle]
  rw [poolOutDim, hcast, pyTrunc_eq_floor _ (by positivity), Int.floor_add_one,
    Rat.floor_natCast_div_natCast]
  norm_cast

/-! ## Claim C1 (corrected): invalid-mode behaviour -/

/-- Claim C1, amended.  For every mode value other than "train" and "test",
both forward kernels fail before returning and neither falls back to a
default behaviour; the batch-normalization kernel raises a ValueError whose
message contains the offending mode value, while the dropout kernel raises
an AttributeError (astype called on the never-assigned None output) whose
message does not name the mode. -/
theorem batchnorm_dropout_invalid_mode_failure (sq : ℚ → ℚ) (x : Mat) (gamma beta : Vec)
    (bnp : BNParam) (xd : TenN) (dp : DropoutParam) (probs : ℕ → ℚ) (mode : String)
    (hbn : bnp.mode = mode) (hdp : dp.mode = mode)
    (h1 : mode ≠ "train") (h2 : mode ≠ "test") :
    (∃ msg, batchnorm_forward sq x gamma beta bnp = .error (.valueError msg) ∧
      containsSub msg.data mode.data = true) ∧
    dropout_forward xd dp probs =
      .error (.attributeError "NoneType object has no attribute astype") := by
  constructor
  · refine ⟨"Invalid forward batchnorm mode \"" ++ mode ++ "\"", ?_, ?_⟩
    · simp only [batchnorm_forward, hbn]
      rw [if_neg h1, if_neg h2]
    · rw [String.data_append, String.data_append]
      exact containsSub_append_middle _ _ _
  · simp only [dropout_forward, hdp]
    rw [if_neg h1, if_neg h2]

/-- Witness for C1 at the concrete invalid mode "foo". -/
theorem batchnorm_dropout_invalid_mode_failure_witness :
    (∃ msg, batchnorm_forward (fun q => q) ⟨1, 1, fun _ _ => 0⟩ ⟨1, fun _ => 1⟩
        ⟨1, fun _ => 0⟩ ⟨"foo", none, none, none, none⟩ = .error (.valueError msg) ∧
      containsSub msg.data "foo".data = true) ∧
    dropout_forward ⟨[1], fun _ => 0⟩ ⟨1 / 2, "foo", none⟩ (fun _ => 0) =
      .error (.attributeError "NoneType object has no attribute astype") :=
  batchnorm_dropout_invalid_mode_failure _ _ _ _ _ _ _ _ "foo" rfl rfl (by decide) (by decide)

/-- Counterexample to C1 as stated: on the invalid mode "foo" the dropout
kernel fails with an AttributeError whose message does not contain the
offending mode value, so the dropout error is not a descriptive error
identifying the mode. -/
theorem dropout_invalid_mode_error_not_descriptive :
    dropout_forward ⟨[1], fun _ => 0⟩ ⟨1 / 2, "foo", none⟩ (fun _ => 0) =
      .error (.attributeError "NoneType object has no attribute astype") ∧
    containsSub "NoneType object has no attribute astype".data "foo".data = false :=
  ⟨rfl, by decide⟩

/-! ## Claim C3: dropout train mode zeroes or passes through, no rescaling -/

/-- Claim C3.  In train mode every element of the dropout output equals the
corresponding input element exactly (survivor, no 1/(1-p) rescaling) or
exactly 0 (dropped). -/
theorem dropout_train_zero_or_unscaled (x : TenN) (dp : DropoutParam) (probs : ℕ → ℚ)
    (hmode : dp.mode = "train") :
    ∃ out mask, dropout_forward x dp probs = .ok (out, (dp, some mask)) ∧
      ∀ k, out.data k = x.data k ∨ out.data k = 0 := by
  obtain ⟨p, mo, sd⟩ := dp
  simp only at hmode
  subst hmode
  refine ⟨_, _, rfl, ?_⟩
  intro k
  by_cases h : probs k < p
  · right
    simp [dropoutMask, h]
  · left
    simp [dropoutMask, h]

/-- Witness for C3 on a concrete input. -/
theorem dropout_train_zero_or_unscaled_witness :
    ∃ out mask,
      dropout_forward ⟨[2], fun _ => 3⟩ ⟨1 / 2, "train", some 0⟩ (fun k => k) =
        .ok (out, (⟨1 / 2, "train", some 0⟩, some mask)) ∧
      ∀ k, out.data k = (3 : ℚ) ∨ out.data k = 0 :=
  dropout_train_zero_or_unscaled ⟨[2], fun _ => 3⟩ ⟨1 / 2, "train", some 0⟩ (fun k => k) rfl

/-! ## Claim C6: test-mode batchnorm performs no state update -/

/-- Claim C6.  A test-mode batchnorm forward call whose config already holds
running_mean and running_var leaves the config exactly as it was (the code
re-assigns the keys with the values it read), and returns no cache (test
mode is inference-only; backward takes only dout and cache and cannot touch
the config). -/
theorem batchnorm_test_mode_frame (sq : ℚ → ℚ) (x : Mat) (gamma beta : Vec)
    (bnp : BNParam) (rm rv : Vec) (hmode : bnp.mode = "test")
    (hm : bnp.running_mean = some rm) (hv : bnp.running_var = some rv) :
    ∃ out, batchnorm_forward sq x gamma beta bnp = .ok (out, none, bnp) := by
  obtain ⟨mo, ep, mom, orm, orv⟩ := bnp
  simp only at hmode hm hv
  subst hmode hm hv
  exact ⟨_, rfl⟩

/-- Witness for C6 on a concrete config. -/
theorem batchnorm_test_mode_frame_witness :
    ∃ out, batchnorm_forward (fun q => q) ⟨2, 1, fun _ _ => 1⟩ ⟨1, fun _ => 1⟩ ⟨1, fun _ => 0⟩
        ⟨"test", none, none, some ⟨1, fun _ => 5⟩, some ⟨1, fun _ => 2⟩⟩ =
      .ok (out, none, ⟨"test", none, none, some ⟨1, fun _ => 5⟩, some ⟨1, fun _ => 2⟩⟩) :=
  batchnorm_test_mode_frame _ _ _ _ _ ⟨1, fun _ => 5⟩ ⟨1, fun _ => 2⟩ rfl rfl rfl

/-! ## Claim C9: test-mode batchnorm creates missing running-stat keys -/

/-- Claim C9.  A test-mode batchnorm forward call on an (N, D) input whose
config lacks the running_mean and running_var keys still assigns both keys
afterwards, setting them to zero arrays of shape (D,): even a test-mode call
mutates the caller-supplied config. -/
theorem batchnorm_test_mode_creates_running_keys (sq : ℚ → ℚ) (x : Mat) (gamma beta : Vec)
    (bnp : BNParam) (hmode : bnp.mode = "test")
    (hm : bnp.running_mean = none) (hv : bnp.running_var = none) :
    ∃ out, batchnorm_forward sq x gamma beta bnp =
      .ok (out, none,
        { bnp with running_mean := some ⟨x.cols, fun _ => 0⟩,
                   running_var := some ⟨x.cols, fun _ => 0⟩ }) := by
  obtain ⟨mo, ep, mom, orm, orv⟩ := bnp
  simp only at hmode hm hv
  subst hmode hm hv
  exact ⟨_, rfl⟩

/-- Witness for C9 on a concrete config with no running statistics. -/
theorem batchnorm_test_mode_creates_running_keys_witness :
    ∃ out, batchnorm_forward (fun q => q) ⟨2, 3, fun _ _ => 1⟩ ⟨3, fun _ => 1⟩ ⟨3, fun _ => 0⟩
        ⟨"test", none, none, none, none⟩ =
      .ok (out, none, ⟨"test", none, none, some ⟨3, fun _ => 0⟩, some ⟨3, fun _ => 0⟩⟩) :=
  batchnorm_test_mode_creates_running_keys (fun q => q) ⟨2, 3, fun _ _ => 1⟩ _ _ _ rfl rfl rfl

/-! ## Claim C10: missing conv_param keys default to stride 1 and pad 0 -/

/-- Claim C10.  When the conv_param dictionary omits the stride key the
convolution forward and backward kernels compute exactly what they compute
with stride = 1, and when it omits the pad key they compute exactly what
they compute with pad = 0; no failure on the missing key.  (Forward results
are compared on the output array; the cache also stores the dictionary
itself, which trivially differs.) -/
theorem conv_missing_keys_default (x w : Ten4) (b : Vec) (ps pd : Option ℕ) (dout : Ten4) :
    (conv_forward_naive x w b ⟨none, pd⟩).1 = (conv_forward_naive x w b ⟨some 1, pd⟩).1 ∧
    (conv_forward_naive x w b ⟨ps, none⟩).1 = (conv_forward_naive x w b ⟨ps, some 0⟩).1 ∧
    conv_backward_naive dout (x, w, b, ⟨none, pd⟩) =
      conv_backward_naive dout (x, w, b, ⟨some 1, pd⟩) ∧
    conv_backward_naive dout (x, w, b, ⟨ps, none⟩) =
      conv_backward_naive dout (x, w, b, ⟨ps, some 0⟩) :=
  ⟨rfl, rfl, rfl, rfl⟩

/-! ## Claim C5: convolution output shape law -/

/-- Claim C5.  For input (N, C, H, W), filters (F, C, HH, WW), stride s and
pad p with s exactly dividing H + 2p - HH and W + 2p - WW, the convolution
forward output has shape exactly (N, F, 1 + (H + 2p - HH) / s,
1 + (W + 2p - WW) / s). -/
theorem conv_forward_output_shape (x w : Ten4) (b : Vec) (stride pad : ℕ)
    (hs : 0 < stride) (hH : w.d2 ≤ x.d2 + 2 * pad) (hW : w.d3 ≤ x.d3 + 2 * pad)
    (hdH : stride ∣ (x.d2 + 2 * pad - w.d2)) (hdW : stride ∣ (x.d3 + 2 * pad - w.d3)) :
    (conv_forward_naive x w b ⟨some stride, some pad⟩).1.d0 = x.d0 ∧
    (conv_forward_naive x w b ⟨some stride, some pad⟩).1.d1 = w.d0 ∧
    (conv_forward_naive x w b ⟨some stride, some pad⟩).1.d2 =
      1 + (x.d2 + 2 * pad - w.d2) / stride ∧
    (conv_forward_naive x w b ⟨some stride, some pad⟩).1.d3 =
      1 + (x.d3 + 2 * pad - w.d3) / stride :=
  ⟨rfl, rfl, convOutDim_exact _ _ _ _ hs hH hdH, convOutDim_exact _ _ _ _ hs hW hdW⟩

/-- Witness for C5: a 4x4 input, 2x2 filter, stride 2, pad 0 gives a 2x2
output. -/
theorem conv_forward_output_shape_witness :
    (conv_forward_naive ⟨1, 1, 4, 4, fun _ _ _ _ => 0⟩ ⟨1, 1, 2, 2, fun _ _ _ _ => 1⟩
        ⟨1, fun _ => 0⟩ ⟨some 2, some 0⟩).1.d0 = 1 ∧
    (conv_forward_naive ⟨1, 1, 4, 4, fun _ _ _ _ => 0⟩ ⟨1, 1, 2, 2, fun _ _ _ _ => 1⟩
        ⟨1, fun _ => 0⟩ ⟨some 2, some 0⟩).1.d1 = 1 ∧
    (conv_forward_naive ⟨1, 1, 4, 4, fun _ _ _ _ => 0⟩ ⟨1, 1, 2, 2, fun _ _ _ _ => 1⟩
        ⟨1, fun _ => 0⟩ ⟨some 2, some 0⟩).1.d2 = 1 + (4 + 2 * 0 - 2) / 2 ∧
    (conv_forward_naive ⟨1, 1, 4, 4, fun _ _ _ _ => 0⟩ ⟨1, 1, 2, 2, fun _ _ _ _ => 1⟩
        ⟨1, fun _ => 0⟩ ⟨some 2, some 0⟩).1.d3 = 1 + (4 + 2 * 0 - 2) / 2 :=
  conv_forward_output_shape ⟨1, 1, 4, 4, fun _ _ _ _ => 0⟩ ⟨1, 1, 2, 2, fun _ _ _ _ => 1⟩
    ⟨1, fun _ => 0⟩ 2 0 (by decide) (by decide) (by decide) (by decide) (by decide)

/-! ## Claim C4: max-pool gradient routing -/

/-- On a cache produced by the forward pass, the backward max-pool gradient
at an input location is the sum, over the output positions whose window
contains the location and whose stored window maximum equals the value
there, of the corresponding upstream values. -/
theorem max_pool_backward_char (x dout : Ten4) (HH WW s n c h v : ℕ) :
    (max_pool_backward_naive dout
        (max_pool_forward_naive x ⟨some HH, some WW, some s⟩).2).data n c h v =
      ∑ i ∈ Finset.range (poolOutDim x.d2 HH s).toNat,
        ∑ j ∈ Finset.range (poolOutDim x.d3 WW s).toNat,
          if (s * i ≤ h ∧ h < s * i + HH ∧ s * j ≤ v ∧ v < s * j + WW) ∧
              x.data n c h v = poolWindowMax x s HH WW n c i j then
            dout.data n c i j
          else 0 := by
  simp only [max_pool_backward_naive, max_pool_forward_naive, Option.getD_some]
  refine Finset.sum_congr rfl fun i _ => Finset.sum_congr rfl fun j _ => ?_
  by_cases hA : s * i ≤ h ∧ h < s * i + HH ∧ s * j ≤ v ∧ v < s * j + WW
  · by_cases hB : x.data n c h v = poolWindowMax x s HH WW n c i j
    · simp [hA, hB]
    · simp [hA, hB]
  · simp [hA]

/-- Claim C4.  With the cache produced by the forward pass: an input location
equal to the stored maximum of exactly one window containing it receives the
full upstream gradient of that window (this also covers ties inside the
window: the hypothesis only asks that the value equal the window maximum,
not that it be the unique such location); a location that attains the
maximum of no window containing it receives gradient 0; and at every
location the gradient is the additive accumulation over all windows of the
full upstream value of each window whose stored maximum the location
attains. -/
theorem max_pool_backward_gradient_routing (x dout : Ten4)
    (HH WW s n c h v h2 v2 h3 v3 i0 j0 : ℕ)
    (hi0 : i0 < (poolOutDim x.d2 HH s).toNat) (hj0 : j0 < (poolOutDim x.d3 WW s).toNat)
    (hwin : s * i0 ≤ h ∧ h < s * i0 + HH ∧ s * j0 ≤ v ∧ v < s * j0 + WW)
    (hmax : x.data n c h v = poolWindowMax x s HH WW n c i0 j0)
    (huniq : ∀ i, i < (poolOutDim x.d2 HH s).toNat →
      ∀ j, j < (poolOutDim x.d3 WW s).toNat →
      (s * i ≤ h ∧ h < s * i + HH ∧ s * j ≤ v ∧ v < s * j + WW) →
      x.data n c h v = poolWindowMax x s HH WW n c i j → i = i0 ∧ j = j0)
    (hzero : ∀ i, i < (poolOutDim x.d2 HH s).toNat →
      ∀ j, j < (poolOutDim x.d3 WW s).toNat →
      (s * i ≤ h2 ∧ h2 < s * i + HH ∧ s * j ≤ v2 ∧ v2 < s * j + WW) →
      x.data n c h2 v2 ≠ poolWindowMax x s HH WW n c i j) :
    (max_pool_backward_naive dout
        (max_pool_forward_naive x ⟨some HH, some WW, some s⟩).2).data n c h v =
      dout.data n c i0 j0 ∧
    (max_pool_backward_naive dout
        (max_pool_forward_naive x ⟨some HH, some WW, some s⟩).2).data n c h2 v2 = 0 ∧
    (max_pool_backward_naive dout
        (max_pool_forward_naive x ⟨some HH, some WW, some s⟩).2).data n c h3 v3 =
      ∑ i ∈ Finset.range (poolOutDim x.d2 HH s).toNat,
        ∑ j ∈ Finset.range (poolOutDim x.d3 WW s).toNat,
          if (s * i ≤ h3 ∧ h3 < s * i + HH ∧ s * j ≤ v3 ∧ v3 < s * j + WW) ∧
              x.data n c h3 v3 = poolWindowMax x s HH WW n c i j then
            dout.data n c i j
          else 0 := by
  refine ⟨?_, ?_, max_pool_backward_char x dout HH WW s n c h3 v3⟩
  · rw [max_pool_backward_char]
    rw [Finset.sum_eq_single_of_mem i0 (Finset.mem_range.mpr hi0)]
    · rw [Finset.sum_eq_single_of_mem j0 (Finset.mem_range.mpr hj0)]
      · rw [if_pos ⟨hwin, hmax⟩]
      · intro j hj hne
        rw [if_neg]
        rintro ⟨hw2, hm2⟩
        exact hne (huniq i0 hi0 j (Finset.mem_range.mp hj) hw2 hm2).2
    · intro i hi hne
      refine Finset.sum_eq_zero fun j hj => ?_
      rw [if_neg]
      rintro ⟨hw2, hm2⟩
      exact hne (huniq i (Finset.mem_range.mp hi) j (Finset.mem_range.mp hj) hw2 hm2).1
  · rw [max_pool_backward_char]
    refine Finset.sum_eq_zero fun i hi => Finset.sum_eq_zero fun j hj => ?_
    rw [if_neg]
    rintro ⟨hw2, hm2⟩
    exact hzero i (Finset.mem_range.mp hi) j (Finset.mem_range.mp hj) hw2 hm2

/-- Witness for C4: a single 2x2 window over a 2x2 input with values 0..3;
the location holding 3 gets the whole upstream value, the location holding 0
gets zero. -/
theorem max_pool_backward_gradient_routing_witness :
    (max_pool_backward_naive ⟨1, 1, 1, 1, fun _ _ _ _ => 7⟩
        (max_pool_forward_naive ⟨1, 1, 2, 2, fun _ _ h v => ((2 * h + v : ℕ) : ℚ)⟩
          ⟨some 2, some 2, some 1⟩).2).data 0 0 1 1 = 7 ∧
    (max_pool_backward_naive ⟨1, 1, 1, 1, fun _ _ _ _ => 7⟩
        (max_pool_forward_naive ⟨1, 1, 2, 2, fun _ _ h v => ((2 * h + v : ℕ) : ℚ)⟩
          ⟨some 2, some 2, some 1⟩).2).data 0 0 0 0 = 0 ∧
    (max_pool_backward_naive ⟨1, 1, 1, 1, fun _ _ _ _ => 7⟩
        (max_pool_forward_naive ⟨1, 1, 2, 2, fun _ _ h v => ((2 * h + v : ℕ) : ℚ)⟩
          ⟨some 2, some 2, some 1⟩).2).data 0 0 0 1 =
      ∑ i ∈ Finset.range (poolOutDim (⟨1, 1, 2, 2, fun _ _ h v =>
          ((2 * h + v : ℕ) : ℚ)⟩ : Ten4).d2 2 1).toNat,
        ∑ j ∈ Finset.range (poolOutDim (⟨1, 1, 2, 2, fun _ _ h v =>
            ((2 * h + v : ℕ) : ℚ)⟩ : Ten4).d3 2 1).toNat,
          if (1 * i ≤ 0 ∧ 0 < 1 * i + 2 ∧ 1 * j ≤ 1 ∧ 1 < 1 * j + 2) ∧
              (⟨1, 1, 2, 2, fun _ _ h v => ((2 * h + v : ℕ) : ℚ)⟩ : Ten4).data 0 0 0 1 =
                poolWindowMax ⟨1, 1, 2, 2, fun _ _ h v => ((2 * h + v : ℕ) : ℚ)⟩
                  1 2 2 0 0 i j then
            (⟨1, 1, 1, 1, fun _ _ _ _ => 7⟩ : Ten4).data 0 0 i j
          else 0 := by
  have hb : (poolOutDim 2 2 1).toNat = 1 := by
    rw [poolOutDim_eq 2 2 1 (by decide) (by decide)]
  refine max_pool_backward_gradient_routing _ _ 2 2 1 0 0 1 1 0 0 0 1 0 0
    (by rw [show (⟨1, 1, 2, 2, fun _ _ h v => ((2 * h + v : ℕ) : ℚ)⟩ : Ten4).d2 = 2 from rfl,
      hb]; decide)
    (by rw [show (⟨1, 1, 2, 2, fun _ _ h v => ((2 * h + v : ℕ) : ℚ)⟩ : Ten4).d3 = 2 from rfl,
      hb]; decide)
    (by decide) (by decide) ?_ ?_
  · intro i hi j hj _ _
    rw [show (⟨1, 1, 2, 2, fun _ _ h v => ((2 * h + v : ℕ) : ℚ)⟩ : Ten4).d2 = 2 from rfl,
      hb] at hi
    rw [show (⟨1, 1, 2, 2, fun _ _ h v => ((2 * h + v : ℕ) : ℚ)⟩ : Ten4).d3 = 2 from rfl,
      hb] at hj
    omega
  · intro i hi j hj hcond
    rw [show (⟨1, 1, 2, 2, fun _ _ h v => ((2 * h + v : ℕ) : ℚ)⟩ : Ten4).d2 = 2 from rfl,
      hb] at hi
    rw [show (⟨1, 1, 2, 2, fun _ _ h v => ((2 * h + v : ℕ) : ℚ)⟩ : Ten4).d3 = 2 from rfl,
      hb] at hj
    have hi0 : i = 0 := by omega
    have hj0 : j = 0 := by omega
    subst hi0 hj0
    decide

/-! ## Claim C2: the two batchnorm backward variants agree -/

/-- The centered input sums to zero over the batch when centered by the
batch mean. -/
theorem bn_sum_centered (x : Mat) (j : ℕ) (hN : (x.rows : ℚ) ≠ 0) :
    ∑ i ∈ Finset.range x.rows, (x.data i j - (bnSampleMean x).data j) = 0 := by
  simp only [bnSampleMean]
  rw [Finset.sum_sub_distrib, Finset.sum_const, Finset.card_range]
  field_simp

/-- Claim C2.  On a training-mode cache produced by the forward kernel (with
the square root satisfying its defining equation on the variances the code
feeds it) and an upstream gradient of matching batch size, the direct
graph-reversal backward variant and the algebraically simplified variant
return exactly equal d-input, d-gamma and d-beta, as exact rational
arithmetic. -/
theorem batchnorm_backward_variants_agree (sq : ℚ → ℚ) (x : Mat) (gamma beta : Vec)
    (eps : ℚ) (dout : Mat) (hN : x.rows ≠ 0) (hrows : dout.rows = x.rows)
    (hsq : ∀ j, sq ((bnSampleVar x).data j + eps) ^ 2 = (bnSampleVar x).data j + eps ∧
      sq ((bnSampleVar x).data j + eps) ≠ 0) :
    batchnorm_backward dout (bnTrainCache sq x gamma beta eps) =
      batchnorm_backward_alt sq dout (bnTrainCache sq x gamma beta eps) := by
  have hNQ : (x.rows : ℚ) ≠ 0 := Nat.cast_ne_zero.mpr hN
  refine Prod.ext ?_ rfl
  simp only [batchnorm_backward, batchnorm_backward_alt, bnTrainCache, bnNum, bnDen, bnXn]
  refine Mat.ext rfl rfl ?_
  funext i j
  simp only
  rw [hrows]
  obtain ⟨hA2, hA0⟩ := hsq j
  have hzero := bn_sum_centered x j hNQ
  have hs1 : ∑ k ∈ Finset.range x.rows,
      dout.data k j * gamma.data j * (1 / sq ((bnSampleVar x).data j + eps)) =
      (∑ k ∈ Finset.range x.rows, dout.data k j) * gamma.data j *
        (1 / sq ((bnSampleVar x).data j + eps)) := by
    rw [← Finset.sum_mul, ← Finset.sum_mul]
  have hs2 : ∑ k ∈ Finset.range x.rows,
      dout.data k j * gamma.data j * (x.data k j - (bnSampleMean x).data j) =
      gamma.data j * ∑ k ∈ Finset.range x.rows,
        dout.data k j * (x.data k j - (bnSampleMean x).data j) := by
    rw [Finset.mul_sum]
    exact Finset.sum_congr rfl fun k _ => by ring
  rw [hs1, hs2, hzero]
  set A := sq ((bnSampleVar x).data j + eps) with hA
  rw [← hA2]
  field_simp
  ring

/-- Witness for C2 on a concrete 2x1 training batch (x constant zero, eps 1,
square root 1). -/
theorem batchnorm_backward_variants_agree_witness :
    batchnorm_backward ⟨2, 1, fun _ _ => 1⟩
        (bnTrainCache (fun _ => 1) ⟨2, 1, fun _ _ => 0⟩ ⟨1, fun _ => 1⟩ ⟨1, fun _ => 0⟩ 1) =
      batchnorm_backward_alt (fun _ => 1) ⟨2, 1, fun _ _ => 1⟩
        (bnTrainCache (fun _ => 1) ⟨2, 1, fun _ _ => 0⟩ ⟨1, fun _ => 1⟩ ⟨1, fun _ => 0⟩ 1) :=
  batchnorm_backward_variants_agree (fun _ => 1) ⟨2, 1, fun _ _ => 0⟩ ⟨1, fun _ => 1⟩
    ⟨1, fun _ => 0⟩ 1 ⟨2, 1, fun _ _ => 1⟩ (by decide) rfl
    (fun j => by
      have hv : (bnSampleVar ⟨2, 1, fun _ _ => 0⟩).data j = 0 := by
        simp [bnSampleVar, bnSampleMean]
      rw [hv]
      norm_num)

/-! ## Claim C7: spatial batchnorm on (N, C, 1, 1) matches vanilla batchnorm -/

/-- On an input with both spatial extents 1, the layout transform of the
spatial batchnorm kernel is exactly the (N, C) matrix of the input. -/
theorem spatialReshape_of_unit (x : Ten4) (hH : x.d2 = 1) (hW : x.d3 = 1) :
    spatialReshape x = ⟨x.d0, x.d1, fun i c => x.data i c 0 0⟩ := by
  refine Mat.ext ?_ rfl ?_
  · simp [spatialReshape, hH, hW]
  · funext i c
    simp [spatialReshape, hH, hW, Nat.mod_one]

/-- Claim C7.  For a (N, C, 1, 1) input, the spatial batch-normalization
forward kernel returns exactly the result of applying the vanilla kernel to
the equivalent (N, C) matrix (same cache, same updated config, output equal
up to the inverse layout transform, which at spatial position (0, 0) reads
back the same entries), and for a (N, C, 1, 1) upstream gradient and any
cache the spatial backward kernel returns exactly the d-input of the vanilla
backward kernel on the equivalent (N, C) gradient (at spatial position
(0, 0)) together with identical d-gamma and d-beta. -/
theorem spatial_batchnorm_consistency (sq : ℚ → ℚ) (x : Ten4) (gamma beta : Vec)
    (bnp : BNParam) (dout : Ten4) (cache : BNCache) (m : Mat) (n c : ℕ)
    (hH : x.d2 = 1) (hW : x.d3 = 1) (hdH : dout.d2 = 1) (hdW : dout.d3 = 1) :
    spatial_batchnorm_forward sq x gamma beta bnp =
      (batchnorm_forward sq ⟨x.d0, x.d1, fun i c2 => x.data i c2 0 0⟩ gamma beta bnp).map
        (fun r => (spatialUnreshape x.d0 x.d1 x.d2 x.d3 r.1, r.2.1, r.2.2)) ∧
    (spatialUnreshape x.d0 x.d1 x.d2 x.d3 m).data n c 0 0 = m.data n c ∧
    (spatial_batchnorm_backward sq dout cache).1.data n c 0 0 =
      (batchnorm_backward_alt sq ⟨dout.d0, dout.d1, fun i c2 => dout.data i c2 0 0⟩
        cache).1.data n c ∧
    (spatial_batchnorm_backward sq dout cache).2.1 =
      (batchnorm_backward_alt sq ⟨dout.d0, dout.d1, fun i c2 => dout.data i c2 0 0⟩
        cache).2.1 ∧
    (spatial_batchnorm_backward sq dout cache).2.2 =
      (batchnorm_backward_alt sq ⟨dout.d0, dout.d1, fun i c2 => dout.data i c2 0 0⟩
        cache).2.2 := by
  have hx := spatialReshape_of_unit x hH hW
  have hd := spatialReshape_of_unit dout hdH hdW
  refine ⟨?_, ?_, ?_, ?_, ?_⟩
  · rw [spatial_batchnorm_forward, hx]
    cases batchnorm_forward sq ⟨x.d0, x.d1, fun i c2 => x.data i c2 0 0⟩ gamma beta bnp with
    | ok r => rfl
    | error e => rfl
  · simp [spatialUnreshape, hH, hW]
  · simp only [spatial_batchnorm_backward]
    rw [hd, spatialUnreshape, hdH, hdW]
    simp
  · simp only [spatial_batchnorm_backward]
    rw [hd]
  · simp only [spatial_batchnorm_backward]
    rw [hd]

/-- Witness for C7 on a concrete (1, 1, 1, 1) input and cache. -/
theorem spatial_batchnorm_consistency_witness :
    spatial_batchnorm_forward (fun q => q) ⟨1, 1, 1, 1, fun _ _ _ _ => 2⟩ ⟨1, fun _ => 1⟩
        ⟨1, fun _ => 0⟩ ⟨"train", none, none, none, none⟩ =
      (batchnorm_forward (fun q => q)
          ⟨1, 1, fun i c2 => (⟨1, 1, 1, 1, fun _ _ _ _ => 2⟩ : Ten4).data i c2 0 0⟩
          ⟨1, fun _ => 1⟩ ⟨1, fun _ => 0⟩ ⟨"train", none, none, none, none⟩).map
        (fun r => (spatialUnreshape 1 1 1 1 r.1, r.2.1, r.2.2)) ∧
    (spatialUnreshape 1 1 1 1 ⟨1, 1, fun _ _ => 5⟩).data 0 0 0 0 =
      (⟨1, 1, fun _ _ => 5⟩ : Mat).data 0 0 ∧
    (spatial_batchnorm_backward (fun q => q) ⟨1, 1, 1, 1, fun _ _ _ _ => 3⟩
        ⟨⟨1, fun _ => 1⟩, ⟨1, fun _ => 0⟩, 1, ⟨1, 1, fun _ _ => 0⟩, ⟨1, 1, fun _ _ => 0⟩,
          ⟨1, fun _ => 0⟩, ⟨1, fun _ => 0⟩, ⟨1, 1, fun _ _ => 0⟩,
          ⟨1, fun _ => 1⟩⟩).1.data 0 0 0 0 =
      (batchnorm_backward_alt (fun q => q)
          ⟨1, 1, fun i c2 => (⟨1, 1, 1, 1, fun _ _ _ _ => 3⟩ : Ten4).data i c2 0 0⟩
          ⟨⟨1, fun _ => 1⟩, ⟨1, fun _ => 0⟩, 1, ⟨1, 1, fun _ _ => 0⟩, ⟨1, 1, fun _ _ => 0⟩,
            ⟨1, fun _ => 0⟩, ⟨1, fun _ => 0⟩, ⟨1, 1, fun _ _ => 0⟩,
            ⟨1, fun _ => 1⟩⟩).1.data 0 0 ∧
    (spatial_batchnorm_backward (fun q => q) ⟨1, 1, 1, 1, fun _ _ _ _ => 3⟩
        ⟨⟨1, fun _ => 1⟩, ⟨1, fun _ => 0⟩, 1, ⟨1, 1, fun _ _ => 0⟩, ⟨1, 1, fun _ _ => 0⟩,
          ⟨1, fun _ => 0⟩, ⟨1, fun _ => 0⟩, ⟨1, 1, fun _ _ => 0⟩, ⟨1, fun _ => 1⟩⟩).2.1 =
      (batchnorm_backward_alt (fun q => q)
          ⟨1, 1, fun i c2 => (⟨1, 1, 1, 1, fun _ _ _ _ => 3⟩ : Ten4).data i c2 0 0⟩
          ⟨⟨1, fun _ => 1⟩, ⟨1, fun _ => 0⟩, 1, ⟨1, 1, fun _ _ => 0⟩, ⟨1, 1, fun _ _ => 0⟩,
            ⟨1, fun _ => 0⟩, ⟨1, fun _ => 0⟩, ⟨1, 1, fun _ _ => 0⟩, ⟨1, fun _ => 1⟩⟩).2.1 ∧
    (spatial_batchnorm_backward (fun q => q) ⟨1, 1, 1, 1, fun _ _ _ _ => 3⟩
        ⟨⟨1, fun _ => 1⟩, ⟨1, fun _ => 0⟩, 1, ⟨1, 1, fun _ _ => 0⟩, ⟨1, 1, fun _ _ => 0⟩,
          ⟨1, fun _ => 0⟩, ⟨1, fun _ => 0⟩, ⟨1, 1, fun _ _ => 0⟩, ⟨1, fun _ => 1⟩⟩).2.2 =
      (batchnorm_backward_alt (fun q => q)
          ⟨1, 1, fun i c2 => (⟨1, 1, 1, 1, fun _ _ _ _ => 3⟩ : Ten4).data i c2 0 0⟩
          ⟨⟨1, fun _ => 1⟩, ⟨1, fun _ => 0⟩, 1, ⟨1, 1, fun _ _ => 0⟩, ⟨1, 1, fun _ _ => 0⟩,
            ⟨1, fun _ => 0⟩, ⟨1, fun _ => 0⟩, ⟨1, 1, fun _ _ => 0⟩, ⟨1, fun _ => 1⟩⟩).2.2 :=
  spatial_batchnorm_consistency (fun q => q) ⟨1, 1, 1, 1, fun _ _ _ _ => 2⟩ ⟨1, fun _ => 1⟩
    ⟨1, fun _ => 0⟩ ⟨"train", none, none, none, none⟩ ⟨1, 1, 1, 1, fun _ _ _ _ => 3⟩
    ⟨⟨1, fun _ => 1⟩, ⟨1, fun _ => 0⟩, 1, ⟨1, 1, fun _ _ => 0⟩, ⟨1, 1, fun _ _ => 0⟩,
      ⟨1, fun _ => 0⟩, ⟨1, fun _ => 0⟩, ⟨1, 1, fun _ _ => 0⟩, ⟨1, fun _ => 1⟩⟩
    ⟨1, 1, fun _ _ => 5⟩ 0 0 rfl rfl rfl rfl

/-! ## Claim C8: every backward kernel returns gradients with the shapes of
the corresponding forward inputs and parameters -/

/-- Claim C8.  For every backward kernel (affine, ReLU, batchnorm, dropout,
convolution, max pooling, spatial batchnorm) and shape-valid cache and
upstream gradient, each returned gradient has exactly the shape of the
forward input or parameter it corresponds to: the unflattened input shape
for affine, the padding-stripped input shape for convolution, the running
broadcast shape collapsing to the input shape for the elementwise kernels,
and the parameter shapes for the weight, bias, gamma and beta gradients. -/
theorem backward_gradient_shapes
    (xa : TenN) (wa : Mat) (ba : Vec) (da : Mat)
    (hwa : da.cols = wa.cols) (hba : ba.len = da.cols)
    (xr dr : TenN) (hr : dr.dims = xr.dims)
    (cb : BNCache) (db2 : Mat) (hbr : db2.rows = cb.x.rows) (hbc : db2.cols = cb.x.cols)
    (hbg : db2.cols = cb.gamma.len) (hbb : db2.cols = cb.beta.len)
    (xd : TenN) (pd : DropoutParam) (prd : ℕ → ℚ) (dd : TenN)
    (hpd : pd.mode = "train") (hdd : dd.dims = xd.dims)
    (xc wc : Ten4) (bc : Vec) (cpc : ConvParam) (dc : Ten4)
    (xm om : Ten4) (ppm : PoolParam) (dm : Ten4)
    (sqs : ℚ → ℚ) (xs4 : Ten4) (cs : BNCache) (ds : Ten4)
    (hs0 : ds.d0 = xs4.d0) (hs1 : ds.d1 = xs4.d1) (hs2 : ds.d2 = xs4.d2)
    (hs3 : ds.d3 = xs4.d3) (hsg : ds.d1 = cs.gamma.len) (hsb : ds.d1 = cs.beta.len) :
    (affine_backward da (xa, wa, ba)).1.dims = xa.dims ∧
    (affine_backward da (xa, wa, ba)).2.1.rows = wa.rows ∧
    (affine_backward da (xa, wa, ba)).2.1.cols = wa.cols ∧
    (affine_backward da (xa, wa, ba)).2.2.len = ba.len ∧
    (relu_backward dr xr).dims = xr.dims ∧
    (batchnorm_backward db2 cb).1.rows = cb.x.rows ∧
    (batchnorm_backward db2 cb).1.cols = cb.x.cols ∧
    (batchnorm_backward db2 cb).2.1.len = cb.gamma.len ∧
    (batchnorm_backward db2 cb).2.2.len = cb.beta.len ∧
    (dropout_backward dd (pd, some (dropoutMask xd pd.p prd))).map
      (fun o => o.map TenN.dims) = Except.ok (some xd.dims) ∧
    (conv_backward_naive dc (xc, wc, bc, cpc)).1.d0 = xc.d0 ∧
    (conv_backward_naive dc (xc, wc, bc, cpc)).1.d1 = xc.d1 ∧
    (conv_backward_naive dc (xc, wc, bc, cpc)).1.d2 = xc.d2 ∧
    (conv_backward_naive dc (xc, wc, bc, cpc)).1.d3 = xc.d3 ∧
    (conv_backward_naive dc (xc, wc, bc, cpc)).2.1.d0 = wc.d0 ∧
    (conv_backward_naive dc (xc, wc, bc, cpc)).2.1.d1 = wc.d1 ∧
    (conv_backward_naive dc (xc, wc, bc, cpc)).2.1.d2 = wc.d2 ∧
    (conv_backward_naive dc (xc, wc, bc, cpc)).2.1.d3 = wc.d3 ∧
    (conv_backward_naive dc (xc, wc, bc, cpc)).2.2.len = bc.len ∧
    (max_pool_backward_naive dm (xm, om, ppm)).d0 = xm.d0 ∧
    (max_pool_backward_naive dm (xm, om, ppm)).d1 = xm.d1 ∧
    (max_pool_backward_naive dm (xm, om, ppm)).d2 = xm.d2 ∧
    (max_pool_backward_naive dm (xm, om, ppm)).d3 = xm.d3 ∧
    (spatial_batchnorm_backward sqs ds cs).1.d0 = xs4.d0 ∧
    (spatial_batchnorm_backward sqs ds cs).1.d1 = xs4.d1 ∧
    (spatial_batchnorm_backward sqs ds cs).1.d2 = xs4.d2 ∧
    (spatial_batchnorm_backward sqs ds cs).1.d3 = xs4.d3 ∧
    (spatial_batchnorm_backward sqs ds cs).2.1.len = cs.gamma.len ∧
    (spatial_batchnorm_backward sqs ds cs).2.2.len = cs.beta.len := by
  refine ⟨rfl, rfl, hwa, hba.symm, ?_, hbr, hbc, hbg, hbb, ?_, rfl, rfl, ?_, ?_,
    rfl, rfl, rfl, rfl, rfl, rfl, rfl, rfl, rfl, hs0, hs1, hs2, hs3, hsg, hsb⟩
  · simp only [relu_backward]
    rw [hr, broadcastShape_self]
  · simp only [dropout_backward, hpd, if_pos, dropoutMask]
    rw [hdd, broadcastShape_self]
    rfl
  · simp only [conv_backward_naive]
    omega
  · simp only [conv_backward_naive]
    omega

/-- Witness for C8 on concrete shape-valid inputs for each kernel. -/
theorem backward_gradient_shapes_witness :
    (affine_backward sampleMat1 (sampleTenN12, sampleMat21, sampleVec1)).1.dims =
      sampleTenN12.dims ∧
    (affine_backward sampleMat1 (sampleTenN12, sampleMat21, sampleVec1)).2.1.rows =
      sampleMat21.rows ∧
    (affine_backward sampleMat1 (sampleTenN12, sampleMat21, sampleVec1)).2.1.cols =
      sampleMat21.cols ∧
    (affine_backward sampleMat1 (sampleTenN12, sampleMat21, sampleVec1)).2.2.len =
      sampleVec1.len ∧
    (relu_backward sampleTenN sampleTenN).dims = sampleTenN.dims ∧
    (batchnorm_backward sampleMat1 sampleCache).1.rows = sampleCache.x.rows ∧
    (batchnorm_backward sampleMat1 sampleCache).1.cols = sampleCache.x.cols ∧
    (batchnorm_backward sampleMat1 sampleCache).2.1.len = sampleCache.gamma.len ∧
    (batchnorm_backward sampleMat1 sampleCache).2.2.len = sampleCache.beta.len ∧
    (dropout_backward sampleTenN (⟨1 / 2, "train", none⟩, some
        (dropoutMask sampleTenN (⟨1 / 2, "train", none⟩ : DropoutParam).p (fun _ => 0)))).map
      (fun o => o.map TenN.dims) = Except.ok (some sampleTenN.dims) ∧
    (conv_backward_naive sampleTen4
      (sampleTen4, sampleTen4unit, sampleVec1, ⟨some 1, some 0⟩)).1.d0 = sampleTen4.d0 ∧
    (conv_backward_naive sampleTen4
      (sampleTen4, sampleTen4unit, sampleVec1, ⟨some 1, some 0⟩)).1.d1 = sampleTen4.d1 ∧
    (conv_backward_naive sampleTen4
      (sampleTen4, sampleTen4unit, sampleVec1, ⟨some 1, some 0⟩)).1.d2 = sampleTen4.d2 ∧
    (conv_backward_naive sampleTen4
      (sampleTen4, sampleTen4unit, sampleVec1, ⟨some 1, some 0⟩)).1.d3 = sampleTen4.d3 ∧
    (conv_backward_naive sampleTen4
      (sampleTen4, sampleTen4unit, sampleVec1, ⟨some 1, some 0⟩)).2.1.d0 = sampleTen4unit.d0 ∧
    (conv_backward_naive sampleTen4
      (sampleTen4, sampleTen4unit, sampleVec1, ⟨some 1, some 0⟩)).2.1.d1 = sampleTen4unit.d1 ∧
    (conv_backward_naive sampleTen4
      (sampleTen4, sampleTen4unit, sampleVec1, ⟨some 1, some 0⟩)).2.1.d2 = sampleTen4unit.d2 ∧
    (conv_backward_naive sampleTen4
      (sampleTen4, sampleTen4unit, sampleVec1, ⟨some 1, some 0⟩)).2.1.d3 = sampleTen4unit.d3 ∧
    (conv_backward_naive sampleTen4
      (sampleTen4, sampleTen4unit, sampleVec1, ⟨some 1, some 0⟩)).2.2.len = sampleVec1.len ∧
    (max_pool_backward_naive sampleTen4
      (sampleTen4, sampleTen4, ⟨some 1, some 1, some 1⟩)).d0 = sampleTen4.d0 ∧
    (max_pool_backward_naive sampleTen4
      (sampleTen4, sampleTen4, ⟨some 1, some 1, some 1⟩)).d1 = sampleTen4.d1 ∧
    (max_pool_backward_naive sampleTen4
      (sampleTen4, sampleTen4, ⟨some 1, some 1, some 1⟩)).d2 = sampleTen4.d2 ∧
    (max_pool_backward_naive sampleTen4
      (sampleTen4, sampleTen4, ⟨some 1, some 1, some 1⟩)).d3 = sampleTen4.d3 ∧
    (spatial_batchnorm_backward (fun q => q) sampleTen4unit sampleCache).1.d0 =
      sampleTen4unit.d0 ∧
    (spatial_batchnorm_backward (fun q => q) sampleTen4unit sampleCache).1.d1 =
      sampleTen4unit.d1 ∧
    (spatial_batchnorm_backward (fun q => q) sampleTen4unit sampleCache).1.d2 =
      sampleTen4unit.d2 ∧
    (spatial_batchnorm_backward (fun q => q) sampleTen4unit sampleCache).1.d3 =
      sampleTen4unit.d3 ∧
    (spatial_batchnorm_backward (fun q => q) sampleTen4unit sampleCache).2.1.len =
      sampleCache.gamma.len ∧
    (spatial_batchnorm_backward (fun q => q) sampleTen4unit sampleCache).2.2.len =
      sampleCache.beta.len :=
  backward_gradient_shapes sampleTenN12 sampleMat21 sampleVec1 sampleMat1 rfl rfl
    sampleTenN sampleTenN rfl sampleCache sampleMat1 rfl rfl rfl rfl
    sampleTenN ⟨1 / 2, "train", none⟩ (fun _ => 0) sampleTenN rfl rfl
    sampleTen4 sampleTen4unit sampleVec1 ⟨some 1, some 0⟩ sampleTen4
    sampleTen4 sampleTen4 ⟨some 1, some 1, some 1⟩ sampleTen4
    (fun q => q) sampleTen4unit sampleCache sampleTen4unit rfl rfl rfl rfl rfl rfl

end Layers
